import Mathlib

/-!
Shallow embedding of the relove_backend marketplace API (an Express/Mongoose
REST backend) and verification of its specification claims.

Conventions of the embedding:
* MongoDB ObjectIds are modelled as strings (`OId`); the JS code compares them
  via `toString()`, i.e. string equality.
* JSON numbers are modelled as rationals (`ℚ`); `parseInt` on a number is
  truncation toward zero (`jsTrunc`); JS falsiness of an optional numeric
  field (`!x`) holds when the field is absent or equal to 0 (`qFalsy`).
* Dates are modelled as natural numbers (milliseconds since epoch).
* A Mongoose `save()` succeeds iff the document satisfies the schema
  validators (`min`, `maxlength`); a failed save leaves the stored state
  unchanged and the handler's catch-all translates it to a 500 response.
* Each request handler becomes a pure function from the relevant stored
  state and request data to a response (and, where it writes, the new
  stored state).
-/

/-- A MongoDB ObjectId, compared by its string form (`toString()` in JS). -/
abbrev OId := String

/-- JS `parseInt` applied to a JSON number: truncation toward zero. -/
def jsTrunc (q : ℚ) : ℤ := Int.tdiv q.num q.den

/-- JS falsiness (`!x`) of an optional numeric field: absent or zero. -/
def qFalsy : Option ℚ → Bool
  | none => true
  | some q => q = 0

/-! ## User model (src/models/User.js)

The embedded `cart` is a list of `{product, quantity}` subdocuments whose
`quantity` carries a `min: 1` schema validator; `favorites` is a list of
product ObjectIds. -/

/-- One embedded cart subdocument `{product, quantity}` of UserSchema. -/
structure CartEntry where
  product : OId
  quantity : ℤ
deriving DecidableEq

/-- `UserSchema.methods.addToFavorites`: push the id unless already present. -/
def addToFavorites (favorites : List OId) (productId : OId) : List OId :=
  if productId ∈ favorites then favorites else favorites ++ [productId]

/-- `UserSchema.methods.removeFromFavorites`: filter out ids equal to the id. -/
def removeFromFavorites (favorites : List OId) (productId : OId) : List OId :=
  favorites.filter (fun id => id ≠ productId)

/-- `UserSchema.methods.addToCart`: increment the first entry with this
product, or push a new `{product, quantity}` entry at the end. -/
def addToCartList : List CartEntry → OId → ℤ → List CartEntry
  | [], productId, quantity => [⟨productId, quantity⟩]
  | e :: es, productId, quantity =>
    if e.product = productId then { e with quantity := e.quantity + quantity } :: es
    else e :: addToCartList es productId quantity

/-- `UserSchema.methods.updateCartItem`: set the first matching entry's
quantity, or reject (`Item not found in cart`) when no entry matches. -/
def updateCartItemList : List CartEntry → OId → ℤ → Option (List CartEntry)
  | [], _, _ => none
  | e :: es, productId, quantity =>
    if e.product = productId then some ({ e with quantity := quantity } :: es)
    else (updateCartItemList es productId quantity).map (fun c => e :: c)

/-- `UserSchema.methods.removeFromCart`: filter out entries for the product. -/
def removeFromCartList (cart : List CartEntry) (productId : OId) : List CartEntry :=
  cart.filter (fun e => e.product ≠ productId)

/-- `UserSchema.methods.clearCart`: empty the cart. -/
def clearCartList (_cart : List CartEntry) : List CartEntry := []

/-- Mongoose validation of the embedded cart on `user.save()`: every
quantity satisfies the schema validator `min: 1`. -/
def saveCartOk (cart : List CartEntry) : Bool := cart.all (fun e => 1 ≤ e.quantity)

/-- The product ids of the cart entries, in order. -/
def cartKeys (cart : List CartEntry) : List OId := cart.map (fun e => e.product)

/-- Quantity of the first cart entry for a product, if any. -/
def cartLookup (cart : List CartEntry) (productId : OId) : Option ℤ :=
  (cart.find? (fun e => e.product = productId)).map (fun e => e.quantity)

/-! ## Cart and favorites request handlers (src/controllers/user.controller.js) -/

/-- Response of a cart handler: HTTP 200 with the cart items, 400, 404 or 500. -/
inductive CartResult
  | ok (items : List CartEntry)
  | validationError (msg : String)
  | notFound (msg : String)
  | serverError
deriving DecidableEq

/-- Result of a cart handler: the response together with the cart as
persisted in the store after the request. -/
structure CartOutcome where
  response : CartResult
  stored : List CartEntry
deriving DecidableEq

/-- `addToCart` handler (POST /api/users/cart/:productId): looks up the
product (404 if absent, 400 if unavailable), then calls the model method
with `parseInt(quantity)` (body default 1) and saves; a validation failure
on save surfaces as a 500. -/
def addToCartCtrl (productFound isAvailable : Bool) (cart : List CartEntry)
    (productId : OId) (quantity? : Option ℚ) : CartOutcome :=
  if !productFound then ⟨CartResult.notFound "Product not found", cart⟩
  else if !isAvailable then ⟨CartResult.validationError "Product is not available", cart⟩
  else
    let q := jsTrunc (quantity?.getD 1)
    let newCart := addToCartList cart productId q
    if saveCartOk newCart then ⟨CartResult.ok newCart, newCart⟩
    else ⟨CartResult.serverError, cart⟩

/-- `updateCartItem` handler (PUT /api/users/cart/:productId): rejects a
missing/zero/`< 1` quantity with 400, maps the model method's
`Item not found in cart` rejection to 404, otherwise sets the entry to
`parseInt(quantity)` and saves (validation failure on save → 500). -/
def updateCartItemCtrl (cart : List CartEntry) (productId : OId)
    (quantity? : Option ℚ) : CartOutcome :=
  if qFalsy quantity? || decide ((quantity?.getD 0) < 1) then
    ⟨CartResult.validationError "Quantity must be at least 1", cart⟩
  else
    match updateCartItemList cart productId (jsTrunc (quantity?.getD 0)) with
    | none => ⟨CartResult.notFound "Item not found in cart", cart⟩
    | some newCart =>
      if saveCartOk newCart then ⟨CartResult.ok newCart, newCart⟩
      else ⟨CartResult.serverError, cart⟩

/-- Response of a favorites handler. -/
inductive FavResult
  | ok (favorites : List OId)
  | notFound (msg : String)
deriving DecidableEq

/-- `addToFavorites` handler (POST /api/users/favorites/:productId): 404 when
the product does not exist, otherwise applies the model method and saves. -/
def addToFavoritesCtrl (productFound : Bool) (favorites : List OId)
    (productId : OId) : FavResult :=
  if !productFound then FavResult.notFound "Product not found"
  else FavResult.ok (addToFavorites favorites productId)

/-- `removeFromFavorites` handler (DELETE /api/users/favorites/:productId):
no existence check; applies the model method and saves. -/
def removeFromFavoritesCtrl (favorites : List OId) (productId : OId) : FavResult :=
  FavResult.ok (removeFromFavorites favorites productId)

/-! ## Product model (src/models/Product.js) -/

/-- The fields of ProductSchema relevant to the verified claims. -/
structure Product where
  id : OId
  title : String
  price : ℚ
  originalPrice : Option ℚ
  category : String
  condition : String
  seller : OId
  isAvailable : Bool
  createdAt : ℕ
deriving DecidableEq

/-- Virtual `discountPercentage`: `if (!this.originalPrice) return 0;` then
`Math.round(((originalPrice - price) / originalPrice) * 100)`.  JS falsiness
of `originalPrice` covers both an unset field and the value 0; `Math.round`
rounds halves toward positive infinity, as does Mathlib's `round`. -/
def discountPercentage (p : Product) : ℤ :=
  match p.originalPrice with
  | none => 0
  | some op => if op = 0 then 0 else round ((op - p.price) / op * 100)

/-- The spec's formula for the discount, as written in the claim: 0 when no
originalPrice is set, else `round((originalPrice − price) / originalPrice × 100)`.
Stated separately from `discountPercentage` so the two can be compared. -/
def specDiscountPercentage (p : Product) : ℤ :=
  match p.originalPrice with
  | none => 0
  | some op => round ((op - p.price) / op * 100)

/-! ## Catalog listing query (src/controllers/product.controller.js, getProducts) -/

/-- The query-string parameters of GET /api/products used by `getProducts`
(the free-text `search` branch, which replaces sorting by relevance score,
is not modelled; the verified claims fix a sort key). -/
structure ProductQuery where
  category : Option String
  condition : Option String
  seller : Option OId
  priceMin : Option ℚ
  priceMax : Option ℚ
  sort : String
  page : ℕ
  limit : ℕ
deriving DecidableEq

/-- The MongoDB filter built by `getProducts`: all present filters are
combined conjunctively. -/
def matchesQuery (q : ProductQuery) (p : Product) : Bool :=
  (match q.category with | none => true | some c => p.category = c) &&
  (match q.condition with | none => true | some c => p.condition = c) &&
  (match q.seller with | none => true | some s => p.seller = s) &&
  (match q.priceMin with | none => true | some m => m ≤ p.price) &&
  (match q.priceMax with | none => true | some m => p.price ≤ m)

/-- The `.sort(sortOption)` stage: `oldest` → createdAt ascending,
`price_low` → price ascending, `price_high` → price descending, anything
else (incl. the default `newest`) → createdAt descending. -/
def sortProducts (sort : String) (ps : List Product) : List Product :=
  if sort = "oldest" then List.insertionSort (fun a b => a.createdAt ≤ b.createdAt) ps
  else if sort = "price_low" then List.insertionSort (fun a b => a.price ≤ b.price) ps
  else if sort = "price_high" then List.insertionSort (fun a b => b.price ≤ a.price) ps
  else List.insertionSort (fun a b => b.createdAt ≤ a.createdAt) ps

/-- The response body of `getProducts`: the page of products, the total
match count, the echoed page number, and `Math.ceil(total / limit)`. -/
structure ProductListing where
  products : List Product
  total : ℕ
  page : ℕ
  pages : ℤ
deriving DecidableEq

/-- `getProducts`: filter, sort, `.skip((page-1)*limit).limit(limit)`, and a
separate `countDocuments` over the same filter; `pages` is
`Math.ceil(total / limit)`. -/
def getProducts (q : ProductQuery) (catalog : List Product) : ProductListing :=
  { products := ((sortProducts q.sort (catalog.filter (matchesQuery q))).drop
      ((q.page - 1) * q.limit)).take q.limit
    total := (catalog.filter (matchesQuery q)).length
    page := q.page
    pages := ⌈(((catalog.filter (matchesQuery q)).length : ℚ) / (q.limit : ℚ))⌉ }

/-! ## Offer model (src/models/Offer.js) -/

/-- The `status` enum of OfferSchema. -/
inductive OfferStatus
  | pending
  | accepted
  | rejected
  | countered
  | expired
deriving DecidableEq

/-- The embedded `counterOffer` subdocument `{price, message}`. -/
structure CounterOffer where
  price : ℚ
  message : String
deriving DecidableEq

/-- An Offer document. -/
structure Offer where
  product : OId
  buyer : OId
  seller : OId
  offerPrice : ℚ
  message : String
  status : OfferStatus
  counterOffer : Option CounterOffer
  createdAt : ℕ
  expiresAt : ℕ
deriving DecidableEq

/-- Conversion of hours to epoch milliseconds. -/
def hoursToMs (h : ℕ) : ℕ := h * 60 * 60 * 1000

/-- The `expiresAt` schema default: 48 hours after creation. -/
def defaultExpiresAt (now : ℕ) : ℕ := now + hoursToMs 48

/-- Mongoose validation of an Offer on `save()`: `offerPrice` has `min: 1`
and `message` has `maxlength: 500`. -/
def saveOfferOk (o : Offer) : Bool := (1 ≤ o.offerPrice) && (o.message.length ≤ 500)

/-- The `Offer.findOne({product, buyer, status: 'pending'})` pre-check used
by `makeOffer`. -/
def hasPendingOffer (offers : List Offer) (productId buyerId : OId) : Bool :=
  offers.any (fun o =>
    decide (o.product = productId ∧ o.buyer = buyerId ∧ o.status = OfferStatus.pending))

/-! ## Offer request handlers (src/controllers/offer.controller.js) -/

/-- Response of `makeOffer`: 201 with the created offer, 404, 400, or 500. -/
inductive MakeOfferResult
  | created (offer : Offer)
  | notFound (msg : String)
  | badRequest (msg : String)
  | serverError
deriving DecidableEq

/-- `makeOffer` handler (POST /api/products/:productId/offers).  Guard order
as in the source: missing/zero offerPrice → 400; unknown product → 404;
unavailable product → 400; own product → 400; existing pending offer by this
buyer → 400; otherwise the offer is created (and its save validated). -/
def makeOffer (offers : List Offer) (product? : Option Product) (buyerId : OId)
    (offerPrice? : Option ℚ) (message? : Option String) (now : ℕ) : MakeOfferResult :=
  if qFalsy offerPrice? then MakeOfferResult.badRequest "Offer price is required"
  else
    match product? with
    | none => MakeOfferResult.notFound "Product not found"
    | some product =>
      if !product.isAvailable then MakeOfferResult.badRequest "Product is not available"
      else if product.seller = buyerId then
        MakeOfferResult.badRequest "You cannot make an offer on your own product"
      else if hasPendingOffer offers product.id buyerId then
        MakeOfferResult.badRequest "You already have a pending offer on this product"
      else
        let offer : Offer :=
          { product := product.id
            buyer := buyerId
            seller := product.seller
            offerPrice := offerPrice?.getD 0
            message := message?.getD ""
            status := OfferStatus.pending
            counterOffer := none
            createdAt := now
            expiresAt := defaultExpiresAt now }
        if saveOfferOk offer then MakeOfferResult.created offer
        else MakeOfferResult.serverError

/-- Response of the two offer-response handlers: 200 with the persisted
offer, 404, 403 or 400.  In the error cases nothing is saved, so the stored
offer is unchanged. -/
inductive RespondResult
  | ok (offer : Offer)
  | notFound (msg : String)
  | forbidden (msg : String)
  | badRequest (msg : String)
deriving DecidableEq

/-- `respondToOffer` handler (PUT /api/offers/:offerId).  `productSeller` is
the `seller` field of the offer's populated product (the handler authorizes
against `offer.product.seller`, not `offer.seller`).  The switch on `action`
is applied without inspecting the offer's current status. -/
def respondToOffer (offer? : Option Offer) (productSeller callerId : OId)
    (action : String) (counterPrice? : Option ℚ) (counterMessage? : Option String) :
    RespondResult :=
  match offer? with
  | none => RespondResult.notFound "Offer not found"
  | some offer =>
    if productSeller ≠ callerId then
      RespondResult.forbidden "Not authorized to respond to this offer"
    else if action = "accept" then
      RespondResult.ok { offer with status := OfferStatus.accepted }
    else if action = "reject" then
      RespondResult.ok { offer with status := OfferStatus.rejected }
    else if action = "counter" then
      if qFalsy counterPrice? then
        RespondResult.badRequest "Counter offer price is required"
      else
        RespondResult.ok { offer with
          status := OfferStatus.countered
          counterOffer := some ⟨counterPrice?.getD 0, counterMessage?.getD ""⟩ }
    else RespondResult.badRequest "Invalid action"

/-- `respondToCounterOffer` handler (PUT /api/offers/:offerId/counter-response).
Guard order as in the source: unknown offer → 404; caller is not the buyer
→ 403; status is not `countered` → 400; then accept/reject, else 400. -/
def respondToCounterOffer (offer? : Option Offer) (callerId : OId) (action : String) :
    RespondResult :=
  match offer? with
  | none => RespondResult.notFound "Offer not found"
  | some offer =>
    if offer.buyer ≠ callerId then
      RespondResult.forbidden "Not authorized to respond to this counter offer"
    else if offer.status ≠ OfferStatus.countered then
      RespondResult.badRequest "This offer does not have a counter offer to respond to"
    else if action = "accept" then
      RespondResult.ok { offer with status := OfferStatus.accepted }
    else if action = "reject" then
      RespondResult.ok { offer with status := OfferStatus.rejected }
    else RespondResult.badRequest "Invalid action"

/-! ## Express routing of /api/users (src/routes/user.routes.js)

Express dispatches to the first registered route whose method and path
pattern match; a `:param` segment matches any single path segment and binds
it. -/

/-- Handlers reachable from the /api/users router. -/
inductive UserHandler
  | getCurrentUser
  | updateProfile
  | getFavorites
  | addFavorite
  | removeFavorite
  | getCart
  | addCartItem
  | updateCartEntry
  | removeCartItem
  | clearCart
  | getUserListings
  | getReceivedOffers
  | getSentOffers
  | getAllUsers
  | getUserById
  | updateUser
  | deleteUser
deriving DecidableEq

/-- A path-pattern segment: a literal or a named `:param`. -/
inductive Seg
  | lit (s : String)
  | param (name : String)
deriving DecidableEq

/-- A registered route. -/
structure Route where
  method : String
  pattern : List Seg
  handler : UserHandler
deriving DecidableEq

/-- Match a pattern against concrete path segments, producing the param
bindings on success. -/
def matchSegs : List Seg → List String → Option (List (String × String))
  | [], [] => some []
  | Seg.lit s :: ps, x :: xs => if x = s then matchSegs ps xs else none
  | Seg.param n :: ps, x :: xs => (matchSegs ps xs).map (fun bs => (n, x) :: bs)
  | _, _ => none

/-- Express dispatch: the first matching route in registration order wins. -/
def dispatch : List Route → String → List String → Option (UserHandler × List (String × String))
  | [], _, _ => none
  | r :: rs, m, path =>
    if r.method = m then
      match matchSegs r.pattern path with
      | some bs => some (r.handler, bs)
      | none => dispatch rs m path
    else dispatch rs m path

/-- The /api/users routes in their registration order in user.routes.js.
Note that `PUT /cart/:productId` is registered before `PUT /cart/clear`. -/
def userRoutes : List Route :=
  [ ⟨"GET", [Seg.lit "me"], UserHandler.getCurrentUser⟩
  , ⟨"PUT", [Seg.lit "me"], UserHandler.updateProfile⟩
  , ⟨"GET", [Seg.lit "favorites"], UserHandler.getFavorites⟩
  , ⟨"POST", [Seg.lit "favorites", Seg.param "productId"], UserHandler.addFavorite⟩
  , ⟨"DELETE", [Seg.lit "favorites", Seg.param "productId"], UserHandler.removeFavorite⟩
  , ⟨"GET", [Seg.lit "cart"], UserHandler.getCart⟩
  , ⟨"POST", [Seg.lit "cart", Seg.param "productId"], UserHandler.addCartItem⟩
  , ⟨"PUT", [Seg.lit "cart", Seg.param "productId"], UserHandler.updateCartEntry⟩
  , ⟨"DELETE", [Seg.lit "cart", Seg.param "productId"], UserHandler.removeCartItem⟩
  , ⟨"PUT", [Seg.lit "cart", Seg.lit "clear"], UserHandler.clearCart⟩
  , ⟨"GET", [Seg.lit "listings"], UserHandler.getUserListings⟩
  , ⟨"GET", [Seg.lit "offers", Seg.lit "received"], UserHandler.getReceivedOffers⟩
  , ⟨"GET", [Seg.lit "offers", Seg.lit "sent"], UserHandler.getSentOffers⟩
  , ⟨"GET", [], UserHandler.getAllUsers⟩
  , ⟨"GET", [Seg.param "id"], UserHandler.getUserById⟩
  , ⟨"PUT", [Seg.param "id"], UserHandler.updateUser⟩
  , ⟨"DELETE", [Seg.param "id"], UserHandler.deleteUser⟩ ]

/-! ## Lemmas about the cart and favorites operations -/

theorem cartKeys_nil : cartKeys [] = [] := rfl

theorem cartKeys_cons (e : CartEntry) (es : List CartEntry) :
    cartKeys (e :: es) = e.product :: cartKeys es := rfl

theorem addToCartList_append_of_not_mem (cart : List CartEntry) (pid : OId) (q : ℤ)
    (h : pid ∉ cartKeys cart) : addToCartList cart pid q = cart ++ [⟨pid, q⟩] := by
  induction cart with
  | nil => rfl
  | cons e es ih =>
    rw [cartKeys_cons, List.mem_cons] at h
    push_neg at h
    rw [addToCartList, if_neg (fun he => h.1 he.symm), ih h.2, List.cons_append]

theorem cartKeys_addToCartList_of_mem (cart : List CartEntry) (pid : OId) (q : ℤ)
    (h : pid ∈ cartKeys cart) :
    cartKeys (addToCartList cart pid q) = cartKeys cart := by
  induction cart with
  | nil => cases h
  | cons e es ih =>
    rw [cartKeys_cons, List.mem_cons] at h
    by_cases hp : e.product = pid
    · rw [addToCartList, if_pos hp, cartKeys_cons, cartKeys_cons]
    · rw [addToCartList, if_neg hp, cartKeys_cons, cartKeys_cons,
        ih (h.resolve_left (fun hh => hp hh.symm))]

theorem cartLookup_nil (pid : OId) : cartLookup [] pid = none := rfl

theorem cartLookup_cons (e : CartEntry) (es : List CartEntry) (pid : OId) :
    cartLookup (e :: es) pid =
      if e.product = pid then some e.quantity else cartLookup es pid := by
  by_cases hp : e.product = pid
  · rw [if_pos hp]
    unfold cartLookup
    rw [List.find?_cons_of_pos _ (by simpa using hp)]
    rfl
  · rw [if_neg hp]
    unfold cartLookup
    rw [List.find?_cons_of_neg _ (by simpa using hp)]

theorem cartLookup_addToCartList_self (cart : List CartEntry) (pid : OId) (q : ℤ) :
    cartLookup (addToCartList cart pid q) pid =
      some ((cartLookup cart pid).getD 0 + q) := by
  induction cart with
  | nil =>
    rw [addToCartList, cartLookup_cons, cartLookup_nil, if_pos rfl]
    simp
  | cons e es ih =>
    by_cases hp : e.product = pid
    · rw [addToCartList, if_pos hp, cartLookup_cons, cartLookup_cons, if_pos hp, if_pos hp]
      rfl
    · rw [addToCartList, if_neg hp, cartLookup_cons, cartLookup_cons, if_neg hp, if_neg hp, ih]

theorem cartLookup_addToCartList_other (cart : List CartEntry) (pid pid' : OId) (q : ℤ)
    (h : pid' ≠ pid) :
    cartLookup (addToCartList cart pid q) pid' = cartLookup cart pid' := by
  induction cart with
  | nil =>
    rw [addToCartList, cartLookup_cons, cartLookup_nil, if_neg (fun hh => h hh.symm)]
  | cons e es ih =>
    by_cases hp : e.product = pid
    · rw [addToCartList, if_pos hp, cartLookup_cons, cartLookup_cons]
      by_cases hp' : e.product = pid'
      · exact absurd (hp'.symm.trans hp) h
      · rw [if_neg hp', if_neg hp']
    · rw [addToCartList, if_neg hp, cartLookup_cons, cartLookup_cons, ih]

theorem mem_addToCartList_of_lookup (cart : List CartEntry) (pid : OId) (q old : ℤ)
    (h : cartLookup cart pid = some old) :
    (⟨pid, old + q⟩ : CartEntry) ∈ addToCartList cart pid q := by
  induction cart with
  | nil => simp [cartLookup] at h
  | cons e es ih =>
    rw [cartLookup_cons] at h
    by_cases hp : e.product = pid
    · rw [if_pos hp] at h
      rw [addToCartList, if_pos hp]
      have : ({ e with quantity := e.quantity + q } : CartEntry) = ⟨pid, old + q⟩ := by
        cases e
        simp only [Option.some.injEq] at h
        simp_all
      rw [this]
      exact List.mem_cons_self _ _
    · rw [if_neg hp] at h
      rw [addToCartList, if_neg hp]
      exact List.mem_cons_of_mem _ (ih h)

theorem updateCartItemList_eq_none_iff (cart : List CartEntry) (pid : OId) (q : ℤ) :
    updateCartItemList cart pid q = none ↔ pid ∉ cartKeys cart := by
  induction cart with
  | nil => simp [updateCartItemList, cartKeys]
  | cons e es ih =>
    by_cases hp : e.product = pid
    · simp [updateCartItemList, hp, cartKeys_cons]
    · rw [updateCartItemList, if_neg hp, cartKeys_cons]
      simp only [Option.map_eq_none', List.mem_cons, not_or, ih]
      constructor
      · exact fun hn => ⟨fun hh => hp hh.symm, hn⟩
      · exact fun hn => hn.2

theorem cartKeys_updateCartItemList (cart : List CartEntry) (pid : OId) (q : ℤ)
    (c' : List CartEntry) (h : updateCartItemList cart pid q = some c') :
    cartKeys c' = cartKeys cart := by
  induction cart generalizing c' with
  | nil => simp [updateCartItemList] at h
  | cons e es ih =>
    by_cases hp : e.product = pid
    · rw [updateCartItemList, if_pos hp, Option.some.injEq] at h
      subst h
      rw [cartKeys_cons, cartKeys_cons]
    · rw [updateCartItemList, if_neg hp] at h
      cases hr : updateCartItemList es pid q with
      | none => rw [hr] at h; cases h
      | some c'' =>
        rw [hr, Option.map_some'] at h
        cases h
        rw [cartKeys_cons, cartKeys_cons, ih c'' hr]

theorem cartLookup_updateCartItemList_self (cart : List CartEntry) (pid : OId) (q : ℤ)
    (c' : List CartEntry) (h : updateCartItemList cart pid q = some c') :
    cartLookup c' pid = some q := by
  induction cart generalizing c' with
  | nil => simp [updateCartItemList] at h
  | cons e es ih =>
    by_cases hp : e.product = pid
    · rw [updateCartItemList, if_pos hp, Option.some.injEq] at h
      subst h
      rw [cartLookup_cons]
      exact if_pos hp
    · rw [updateCartItemList, if_neg hp] at h
      cases hr : updateCartItemList es pid q with
      | none => rw [hr] at h; cases h
      | some c'' =>
        rw [hr, Option.map_some'] at h
        cases h
        rw [cartLookup_cons, if_neg hp]
        exact ih c'' hr

theorem mem_updateCartItemList (cart : List CartEntry) (pid : OId) (q : ℤ)
    (c' : List CartEntry) (h : updateCartItemList cart pid q = some c') :
    ∀ e ∈ c', e ∈ cart ∨ e.quantity = q := by
  induction cart generalizing c' with
  | nil => simp [updateCartItemList] at h
  | cons e es ih =>
    by_cases hp : e.product = pid
    · rw [updateCartItemList, if_pos hp, Option.some.injEq] at h
      subst h
      intro x hx
      rcases List.mem_cons.mp hx with hx | hx
      · right; rw [hx]
      · exact Or.inl (List.mem_cons_of_mem _ hx)
    · rw [updateCartItemList, if_neg hp] at h
      cases hr : updateCartItemList es pid q with
      | none => rw [hr] at h; cases h
      | some c'' =>
        rw [hr, Option.map_some'] at h
        cases h
        intro x hx
        rcases List.mem_cons.mp hx with hx | hx
        · exact Or.inl (by rw [hx]; exact List.mem_cons_self _ _)
        · rcases ih c'' hr x hx with hm | hq
          · exact Or.inl (List.mem_cons_of_mem _ hm)
          · exact Or.inr hq

theorem cartKeys_removeFromCartList_sublist (cart : List CartEntry) (pid : OId) :
    (cartKeys (removeFromCartList cart pid)).Sublist (cartKeys cart) := by
  unfold cartKeys removeFromCartList
  exact (List.filter_sublist cart).map (fun e => e.product)

theorem removeFromFavorites_of_not_mem (favorites : List OId) (pid : OId)
    (h : pid ∉ favorites) : removeFromFavorites favorites pid = favorites := by
  unfold removeFromFavorites
  refine List.filter_eq_self.mpr (fun a ha => ?_)
  exact decide_eq_true (fun hh : a = pid => h (hh ▸ ha))

theorem addToFavorites_of_mem (favorites : List OId) (pid : OId)
    (h : pid ∈ favorites) : addToFavorites favorites pid = favorites := by
  rw [addToFavorites, if_pos h]

/-! ## Lemmas about jsTrunc -/

theorem jsTrunc_eq_floor (q : ℚ) (h : 0 ≤ q) : jsTrunc q = ⌊q⌋ := by
  rw [jsTrunc, Rat.floor_def,
    Int.tdiv_eq_ediv (Rat.num_nonneg.mpr h) (Int.ofNat_nonneg _)]

theorem one_le_jsTrunc (q : ℚ) (h : 1 ≤ q) : 1 ≤ jsTrunc q := by
  rw [jsTrunc_eq_floor q (le_trans zero_le_one h)]
  exact Int.le_floor.mpr (by exact_mod_cast h)

theorem jsTrunc_intCast (n : ℤ) : jsTrunc (n : ℚ) = n := by
  rw [jsTrunc]
  simp

/-! ## Sample documents used to instantiate the claims -/

/-- An offer whose stored status is already `accepted`. -/
def acceptedOffer : Offer :=
  { product := "p1"
    buyer := "b1"
    seller := "s1"
    offerPrice := 50
    message := ""
    status := OfferStatus.accepted
    counterOffer := none
    createdAt := 0
    expiresAt := hoursToMs 48 }

/-- An offer whose stored status is `countered`. -/
def counteredOffer : Offer :=
  { product := "p1"
    buyer := "b1"
    seller := "s1"
    offerPrice := 50
    message := ""
    status := OfferStatus.countered
    counterOffer := some ⟨70, ""⟩
    createdAt := 0
    expiresAt := hoursToMs 48 }

/-- An available product sold by "s1". -/
def sampleProduct : Product :=
  { id := "prod1"
    title := "Jacket"
    price := 100
    originalPrice := none
    category := "Clothing"
    condition := "Good"
    seller := "s1"
    isAvailable := true
    createdAt := 0 }

/-! ## Claim C1 — seller response and the offer status -/

/-- C1, counterexample: the claim says an accept/reject/counter transition is
never performed on an offer whose status is `accepted` and that such a
request is rejected with InvalidArgument (400).  In the code,
`respondToOffer` never inspects `offer.status`: the seller's `reject` on an
already-`accepted` offer succeeds (HTTP 200) and overwrites the status with
`rejected`. -/
theorem claim_C1_counterexample :
    acceptedOffer.status = OfferStatus.accepted ∧
    respondToOffer (some acceptedOffer) "s1" "s1" "reject" none none
      = RespondResult.ok { acceptedOffer with status := OfferStatus.rejected } := by
  constructor
  · rfl
  · rfl

/-- C1 (amended): for every offer and every seller response via
`respondToOffer`, the action is applied REGARDLESS of the offer's current
status (`pending`, `accepted`, `rejected`, `countered` or `expired` alike):
`accept` sets `accepted`, `reject` sets `rejected`, `counter` with a truthy
`counterPrice` sets `countered` and records the counter offer.  The only
InvalidArgument (400) responses are a `counter` without a truthy
`counterPrice` and an unrecognized action token; in those cases the offer is
not saved. -/
theorem claim_C1_amended (offer : Offer) (productSeller caller : OId)
    (action : String) (cp? : Option ℚ) (cm? : Option String)
    (hauth : productSeller = caller) :
    (action = "accept" →
      respondToOffer (some offer) productSeller caller action cp? cm?
        = RespondResult.ok { offer with status := OfferStatus.accepted }) ∧
    (action = "reject" →
      respondToOffer (some offer) productSeller caller action cp? cm?
        = RespondResult.ok { offer with status := OfferStatus.rejected }) ∧
    (action = "counter" → qFalsy cp? = false →
      respondToOffer (some offer) productSeller caller action cp? cm?
        = RespondResult.ok { offer with
            status := OfferStatus.countered
            counterOffer := some ⟨cp?.getD 0, cm?.getD ""⟩ }) ∧
    (action = "counter" → qFalsy cp? = true →
      respondToOffer (some offer) productSeller caller action cp? cm?
        = RespondResult.badRequest "Counter offer price is required") ∧
    (action ≠ "accept" → action ≠ "reject" → action ≠ "counter" →
      respondToOffer (some offer) productSeller caller action cp? cm?
        = RespondResult.badRequest "Invalid action") := by
  subst hauth
  refine ⟨?_, ?_, ?_, ?_, ?_⟩
  · intro ha
    simp [respondToOffer, ha]
  · intro ha
    simp [respondToOffer, ha]
  · intro ha hcp
    simp [respondToOffer, ha, hcp]
  · intro ha hcp
    simp [respondToOffer, ha, hcp]
  · intro h1 h2 h3
    simp [respondToOffer, h1, h2, h3]

/-- C1, witness: the amended theorem at a concrete input — the seller
accepts an already-accepted offer and the transition is still applied. -/
theorem claim_C1_witness :
    ("s1" : OId) = "s1" ∧
    respondToOffer (some acceptedOffer) "s1" "s1" "accept" none none
      = RespondResult.ok { acceptedOffer with status := OfferStatus.accepted } :=
  ⟨rfl, (claim_C1_amended acceptedOffer "s1" "s1" "accept" none none rfl).1 rfl⟩

/-! ## Claim C2 — offer creation -/

/-- C2, counterexample: the claim lists as the only guards that the product
exists and is available, the caller is not the seller, and the caller has no
other pending offer; under those conditions it asserts an offer is created.
In the code a request whose body carries no `offerPrice` satisfies all four
listed guards yet is rejected with 400 (`Offer price is required`) before
any offer is created. -/
theorem claim_C2_counterexample :
    sampleProduct.isAvailable = true ∧
    sampleProduct.seller ≠ "b1" ∧
    hasPendingOffer [] sampleProduct.id "b1" = false ∧
    makeOffer [] (some sampleProduct) "b1" none none 0
      = MakeOfferResult.badRequest "Offer price is required" := by
  refine ⟨rfl, by decide, rfl, rfl⟩

/-- C2 (amended): if additionally the request supplies an offer price that
is truthy and at least 1 and a message of at most 500 characters (the
schema validators checked on save), then a new offer is created with status
`pending` and `expiresAt` = creation time + 48 hours; and whenever any of
the claim's guards fails (product missing, unavailable, caller is the
seller, or an existing pending offer by this buyer), no offer is created. -/
theorem claim_C2_amended (offers : List Offer) (product : Product) (buyerId : OId)
    (price : ℚ) (message : String) (now : ℕ)
    (hprice : 1 ≤ price) (hmsg : message.length ≤ 500)
    (havail : product.isAvailable = true)
    (hseller : product.seller ≠ buyerId)
    (hpending : hasPendingOffer offers product.id buyerId = false) :
    (∃ o : Offer,
      makeOffer offers (some product) buyerId (some price) (some message) now
        = MakeOfferResult.created o ∧
      o.status = OfferStatus.pending ∧
      o.createdAt = now ∧
      o.expiresAt = o.createdAt + hoursToMs 48 ∧
      o.product = product.id ∧
      o.buyer = buyerId ∧
      o.seller = product.seller ∧
      o.offerPrice = price) ∧
    (∀ (offers' : List Offer) (product' : Product) (price?' : Option ℚ)
        (message?' : Option String) (now' : ℕ) (o : Offer),
      product'.isAvailable = false ∨ product'.seller = buyerId ∨
        hasPendingOffer offers' product'.id buyerId = true →
      makeOffer offers' (some product') buyerId price?' message?' now'
        ≠ MakeOfferResult.created o) ∧
    (∀ (offers' : List Offer) (price?' : Option ℚ) (message?' : Option String)
        (now' : ℕ) (o : Offer),
      makeOffer offers' none buyerId price?' message?' now'
        ≠ MakeOfferResult.created o) := by
  have hp0 : ¬ price = 0 := by
    intro h
    rw [h] at hprice
    exact absurd hprice (by norm_num)
  refine ⟨?_, ?_, ?_⟩
  · refine ⟨{ product := product.id, buyer := buyerId, seller := product.seller
              offerPrice := price, message := message
              status := OfferStatus.pending, counterOffer := none
              createdAt := now, expiresAt := defaultExpiresAt now },
      ?_, rfl, rfl, rfl, rfl, rfl, rfl, rfl⟩
    rw [makeOffer]
    have hq : qFalsy (some price) = false := by
      simp [qFalsy, hp0]
    rw [hq]
    simp only [Bool.false_eq_true, if_false, havail, Bool.not_true,
      if_neg hseller, hpending]
    have hsave : saveOfferOk
        { product := product.id, buyer := buyerId, seller := product.seller
          offerPrice := (some price).getD 0, message := (some message).getD ""
          status := OfferStatus.pending, counterOffer := none
          createdAt := now, expiresAt := defaultExpiresAt now } = true := by
      simp [saveOfferOk, hprice, hmsg]
    rw [if_pos hsave]
    rfl
  · intro offers' product' price?' message?' now' o hguard h
    rw [makeOffer] at h
    by_cases hq : qFalsy price?' = true
    · rw [if_pos hq] at h
      cases h
    · rw [if_neg hq] at h
      by_cases hav : product'.isAvailable = true
      · rw [if_neg (by simp [hav])] at h
        by_cases hs : product'.seller = buyerId
        · rw [if_pos hs] at h
          cases h
        · rw [if_neg hs] at h
          by_cases hpend : hasPendingOffer offers' product'.id buyerId = true
          · rw [if_pos hpend] at h
            cases h
          · rcases hguard with hg | hg | hg
            · rw [hav] at hg
              cases hg
            · exact hs hg
            · exact hpend hg
      · rw [if_pos (by simp [Bool.not_eq_true] at hav; simp [hav])] at h
        cases h
  · intro offers' price?' message?' now' o h
    rw [makeOffer] at h
    by_cases hq : qFalsy price?' = true
    · rw [if_pos hq] at h
      cases h
    · rw [if_neg hq] at h
      cases h

/-- C2, witness: the amended theorem at a concrete input — a 50 offer on an
available 100-priced product not owned by the buyer, with no pending offer,
creates a `pending` offer expiring 48 hours after creation. -/
theorem claim_C2_witness :
    (1 ≤ (50 : ℚ)) ∧
    (∃ o : Offer,
      makeOffer [] (some sampleProduct) "b1" (some 50) (some "") 0
        = MakeOfferResult.created o ∧
      o.status = OfferStatus.pending ∧
      o.createdAt = 0 ∧
      o.expiresAt = o.createdAt + hoursToMs 48 ∧
      o.product = sampleProduct.id ∧
      o.buyer = "b1" ∧
      o.seller = sampleProduct.seller ∧
      o.offerPrice = 50) :=
  ⟨by decide,
    (claim_C2_amended [] sampleProduct "b1" 50 "" 0 (by decide) (by decide)
      (by decide) (by decide) (by decide)).1⟩

/-! ## Claim C3 — buyer response to a counter offer -/

/-- C3: `respondToCounterOffer` applies accept/reject only when the offer's
status is `countered` and the caller is the original buyer; a non-`countered`
status yields InvalidArgument (400, nothing saved), a caller other than the
buyer yields Forbidden (403), and an unrecognized action yields
InvalidArgument (400). -/
theorem claim_C3 (offer : Offer) (callerId : OId) (action : String) :
    (∀ o', respondToCounterOffer (some offer) callerId action = RespondResult.ok o' →
      offer.status = OfferStatus.countered ∧ offer.buyer = callerId ∧
      ((action = "accept" ∧ o' = { offer with status := OfferStatus.accepted }) ∨
       (action = "reject" ∧ o' = { offer with status := OfferStatus.rejected }))) ∧
    (offer.buyer = callerId → offer.status ≠ OfferStatus.countered →
      respondToCounterOffer (some offer) callerId action
        = RespondResult.badRequest "This offer does not have a counter offer to respond to") ∧
    (offer.buyer ≠ callerId →
      respondToCounterOffer (some offer) callerId action
        = RespondResult.forbidden "Not authorized to respond to this counter offer") ∧
    (offer.buyer = callerId → offer.status = OfferStatus.countered →
      action ≠ "accept" → action ≠ "reject" →
      respondToCounterOffer (some offer) callerId action
        = RespondResult.badRequest "Invalid action") := by
  refine ⟨?_, ?_, ?_, ?_⟩
  · intro o' h
    rw [respondToCounterOffer] at h
    by_cases hb : offer.buyer = callerId
    · rw [if_neg (by simpa using hb)] at h
      by_cases hs : offer.status = OfferStatus.countered
      · rw [if_neg (by simpa using hs)] at h
        refine ⟨hs, hb, ?_⟩
        by_cases ha : action = "accept"
        · rw [if_pos ha] at h
          cases h
          exact Or.inl ⟨ha, rfl⟩
        · rw [if_neg ha] at h
          by_cases hr : action = "reject"
          · rw [if_pos hr] at h
            cases h
            exact Or.inr ⟨hr, rfl⟩
          · rw [if_neg hr] at h
            cases h
      · rw [if_pos (by simpa using hs)] at h
        cases h
    · rw [if_pos (by simpa using hb)] at h
      cases h
  · intro hb hs
    rw [respondToCounterOffer, if_neg (by simpa using hb), if_pos (by simpa using hs)]
  · intro hb
    rw [respondToCounterOffer, if_pos (by simpa using hb)]
  · intro hb hs ha hr
    rw [respondToCounterOffer, if_neg (by simpa using hb),
      if_neg (by simpa using hs), if_neg ha, if_neg hr]

/-- C3, witness: at a concrete input — the buyer sends an unrecognized
action on a countered offer and receives InvalidArgument. -/
theorem claim_C3_witness :
    counteredOffer.buyer = "b1" ∧
    counteredOffer.status = OfferStatus.countered ∧
    ("foo" : String) ≠ "accept" ∧
    ("foo" : String) ≠ "reject" ∧
    respondToCounterOffer (some counteredOffer) "b1" "foo"
      = RespondResult.badRequest "Invalid action" :=
  ⟨rfl, rfl, by decide, by decide,
    (claim_C3 counteredOffer "b1" "foo").2.2.2 rfl rfl (by decide) (by decide)⟩

/-! ## Claim C4 — cart uniqueness invariant -/

/-- A concrete two-entry cart. -/
def sampleCart : List CartEntry := [⟨"p1", 2⟩, ⟨"p2", 1⟩]

/-- The rational 3/2, a non-integer request quantity. -/
def threeHalves : ℚ := ⟨3, 2, by decide, by decide⟩

/-- C4: a cart with at most one entry per product keeps that invariant under
every cart operation; adding a product already in the cart increments that
entry's quantity by the requested amount (leaving the key sequence and all
other entries' quantities unchanged) rather than appending a duplicate, and
adding an absent product appends exactly one new entry. -/
theorem claim_C4 (cart : List CartEntry) (pid : OId) (q : ℤ)
    (hnodup : (cartKeys cart).Nodup) :
    (cartKeys (addToCartList cart pid q)).Nodup ∧
    (pid ∈ cartKeys cart →
      cartKeys (addToCartList cart pid q) = cartKeys cart ∧
      cartLookup (addToCartList cart pid q) pid
        = some ((cartLookup cart pid).getD 0 + q) ∧
      ∀ pid', pid' ≠ pid →
        cartLookup (addToCartList cart pid q) pid' = cartLookup cart pid') ∧
    (pid ∉ cartKeys cart →
      addToCartList cart pid q = cart ++ [⟨pid, q⟩]) ∧
    (∀ q' c', updateCartItemList cart pid q' = some c' → (cartKeys c').Nodup) ∧
    (cartKeys (removeFromCartList cart pid)).Nodup ∧
    (cartKeys (clearCartList cart)).Nodup := by
  refine ⟨?_, ?_, ?_, ?_, ?_, ?_⟩
  · by_cases hm : pid ∈ cartKeys cart
    · rw [cartKeys_addToCartList_of_mem cart pid q hm]
      exact hnodup
    · rw [addToCartList_append_of_not_mem cart pid q hm]
      have hk : cartKeys (cart ++ [⟨pid, q⟩]) = cartKeys cart ++ [pid] := by
        unfold cartKeys
        rw [List.map_append]
        rfl
      rw [hk]
      exact List.Nodup.append hnodup (List.nodup_singleton pid)
        ((List.disjoint_singleton).mpr hm)
  · intro hm
    exact ⟨cartKeys_addToCartList_of_mem cart pid q hm,
      cartLookup_addToCartList_self cart pid q,
      fun pid' h => cartLookup_addToCartList_other cart pid pid' q h⟩
  · intro hm
    exact addToCartList_append_of_not_mem cart pid q hm
  · intro q' c' h
    rw [cartKeys_updateCartItemList cart pid q' c' h]
    exact hnodup
  · exact List.Nodup.sublist (cartKeys_removeFromCartList_sublist cart pid) hnodup
  · exact List.nodup_nil
  
/-- C4, witness: the theorem at a concrete two-entry cart — adding a product
already present increments its entry in place. -/
theorem claim_C4_witness :
    (cartKeys sampleCart).Nodup ∧
    "p1" ∈ cartKeys sampleCart ∧
    (cartKeys (addToCartList sampleCart "p1" 3) = cartKeys sampleCart ∧
     cartLookup (addToCartList sampleCart "p1" 3) "p1"
       = some ((cartLookup sampleCart "p1").getD 0 + 3) ∧
     ∀ pid', pid' ≠ "p1" →
       cartLookup (addToCartList sampleCart "p1" 3) pid'
         = cartLookup sampleCart pid') :=
  ⟨by decide, by decide, (claim_C4 sampleCart "p1" 3 (by decide)).2.1 (by decide)⟩

/-! ## Claim C5 — cart quantity update -/

/-- C5, counterexample: the claim says that for a valid requested quantity q
the entry's quantity is set to exactly q.  With q = 3/2 (which passes the
`!quantity || quantity < 1` guard), the handler stores `parseInt(3/2) = 1`,
not 3/2: the stored quantity differs from the requested one. -/
theorem claim_C5_counterexample :
    qFalsy (some threeHalves) = false ∧
    ¬ threeHalves < 1 ∧
    "p1" ∈ cartKeys sampleCart ∧
    updateCartItemCtrl sampleCart "p1" (some threeHalves)
      = ⟨CartResult.ok [⟨"p1", 1⟩, ⟨"p2", 1⟩], [⟨"p1", 1⟩, ⟨"p2", 1⟩]⟩ ∧
    ((1 : ℚ) ≠ threeHalves) := by
  decide

/-- C5 (amended): a missing or `< 1` quantity fails with ValidationError
(400) and the cart is unchanged; a product not in the cart fails with
NotFound (404) and the cart is unchanged; otherwise the entry's quantity is
set to `parseInt(q)` — the integer part of q, which equals q exactly when q
is an integer — with the key sequence preserved. -/
theorem claim_C5_amended (cart : List CartEntry) (pid : OId) :
    (updateCartItemCtrl cart pid none
      = ⟨CartResult.validationError "Quantity must be at least 1", cart⟩) ∧
    (∀ q : ℚ, q < 1 →
      updateCartItemCtrl cart pid (some q)
        = ⟨CartResult.validationError "Quantity must be at least 1", cart⟩) ∧
    (∀ q : ℚ, 1 ≤ q → pid ∉ cartKeys cart →
      updateCartItemCtrl cart pid (some q)
        = ⟨CartResult.notFound "Item not found in cart", cart⟩) ∧
    (∀ q : ℚ, 1 ≤ q → saveCartOk cart = true →
      ∀ c', updateCartItemList cart pid (jsTrunc q) = some c' →
        updateCartItemCtrl cart pid (some q) = ⟨CartResult.ok c', c'⟩ ∧
        cartLookup c' pid = some (jsTrunc q) ∧
        cartKeys c' = cartKeys cart ∧
        (∀ n : ℤ, q = (n : ℚ) → jsTrunc q = n)) := by
  refine ⟨?_, ?_, ?_, ?_⟩
  · rw [updateCartItemCtrl]
    rw [if_pos (by rw [qFalsy]; rfl)]
  · intro q hq
    rw [updateCartItemCtrl]
    rw [if_pos (by
      have : decide (((some q).getD 0) < 1) = true := decide_eq_true hq
      rw [this, Bool.or_true])]
  · intro q hq hm
    have hguard : (qFalsy (some q) || decide (((some q).getD 0) < 1)) = false := by
      have h0 : qFalsy (some q) = false := by
        rw [qFalsy]
        exact decide_eq_false (by intro h; rw [h] at hq; exact absurd hq (by norm_num))
      have h1 : decide (((some q).getD 0) < 1) = false :=
        decide_eq_false (not_lt.mpr hq)
      rw [h0, h1]
      rfl
    rw [updateCartItemCtrl, if_neg (by rw [hguard]; exact Bool.false_ne_true)]
    simp only [Option.getD_some]
    rw [(updateCartItemList_eq_none_iff cart pid (jsTrunc q)).mpr hm]
  · intro q hq hsave c' hupd
    have hguard : (qFalsy (some q) || decide (((some q).getD 0) < 1)) = false := by
      have h0 : qFalsy (some q) = false := by
        rw [qFalsy]
        exact decide_eq_false (by intro h; rw [h] at hq; exact absurd hq (by norm_num))
      have h1 : decide (((some q).getD 0) < 1) = false :=
        decide_eq_false (not_lt.mpr hq)
      rw [h0, h1]
      rfl
    have hsave' : saveCartOk c' = true := by
      rw [saveCartOk, List.all_eq_true]
      intro e he
      rcases mem_updateCartItemList cart pid (jsTrunc q) c' hupd e he with hm | hqty
      · rw [saveCartOk, List.all_eq_true] at hsave
        exact hsave e hm
      · exact decide_eq_true (by rw [hqty]; exact one_le_jsTrunc q hq)
    refine ⟨?_, cartLookup_updateCartItemList_self cart pid (jsTrunc q) c' hupd,
      cartKeys_updateCartItemList cart pid (jsTrunc q) c' hupd,
      fun n hn => by rw [hn, jsTrunc_intCast]⟩
    rw [updateCartItemCtrl, if_neg (by rw [hguard]; exact Bool.false_ne_true)]
    simp only [Option.getD_some]
    rw [hupd]
    simp only [if_pos hsave']

/-- C5, witness: the amended theorem at a concrete input — updating "p1" to
quantity 2 in the sample cart stores exactly 2. -/
theorem claim_C5_witness :
    (1 ≤ (2 : ℚ)) ∧
    saveCartOk sampleCart = true ∧
    updateCartItemList sampleCart "p1" (jsTrunc 2) = some [⟨"p1", 2⟩, ⟨"p2", 1⟩] ∧
    (updateCartItemCtrl sampleCart "p1" (some 2)
        = ⟨CartResult.ok [⟨"p1", 2⟩, ⟨"p2", 1⟩], [⟨"p1", 2⟩, ⟨"p2", 1⟩]⟩ ∧
     cartLookup [(⟨"p1", 2⟩ : CartEntry), ⟨"p2", 1⟩] "p1" = some (jsTrunc 2) ∧
     cartKeys [(⟨"p1", 2⟩ : CartEntry), ⟨"p2", 1⟩] = cartKeys sampleCart ∧
     (∀ n : ℤ, (2 : ℚ) = (n : ℚ) → jsTrunc 2 = n)) :=
  ⟨by decide, by decide, by decide,
    (claim_C5_amended sampleCart "p1").2.2.2 2 (by decide) (by decide)
      [⟨"p1", 2⟩, ⟨"p2", 1⟩] (by decide)⟩

/-! ## Claim C6 — favorites idempotence -/

/-- C6: favorites add and remove are idempotent — adding an
already-favorited product leaves the list unchanged, removing an absent one
leaves it unchanged, and in both cases the handler succeeds (200) rather
than failing. -/
theorem claim_C6 (favorites : List OId) (pid : OId) :
    (pid ∈ favorites → addToFavorites favorites pid = favorites) ∧
    (pid ∉ favorites → removeFromFavorites favorites pid = favorites) ∧
    (addToFavoritesCtrl true favorites pid
      = FavResult.ok (addToFavorites favorites pid)) ∧
    (removeFromFavoritesCtrl favorites pid
      = FavResult.ok (removeFromFavorites favorites pid)) :=
  ⟨addToFavorites_of_mem favorites pid,
   removeFromFavorites_of_not_mem favorites pid,
   rfl, rfl⟩

/-- C6, witness: the theorem at concrete inputs — re-adding "p1" and
removing the absent "p3" both leave the favorites list `["p1", "p2"]`
unchanged. -/
theorem claim_C6_witness :
    ("p1" ∈ (["p1", "p2"] : List OId)) ∧
    addToFavorites ["p1", "p2"] "p1" = ["p1", "p2"] ∧
    ("p3" ∉ (["p1", "p2"] : List OId)) ∧
    removeFromFavorites ["p1", "p2"] "p3" = ["p1", "p2"] :=
  ⟨by decide, (claim_C6 ["p1", "p2"] "p1").1 (by decide),
   by decide, (claim_C6 ["p1", "p2"] "p3").2.1 (by decide)⟩

/-! ## Claim C9 — PUT /api/users/cart/clear is shadowed -/

/-- C9: because `PUT /cart/:productId` is registered before
`PUT /cart/clear`, dispatching `PUT /api/users/cart/clear` selects the
`updateCartItem` handler with `productId` bound to the literal string
"clear" (so the `clearCart` handler is unreachable via its documented path),
and — since no cart entry's product id is the string "clear" — the request
fails (400 or 404) and never empties the cart. -/
theorem claim_C9 (cart : List CartEntry) (quantity? : Option ℚ)
    (h : "clear" ∉ cartKeys cart) :
    dispatch userRoutes "PUT" ["cart", "clear"]
      = some (UserHandler.updateCartEntry, [("productId", "clear")]) ∧
    (updateCartItemCtrl cart "clear" quantity?).stored = cart ∧
    (∀ items, (updateCartItemCtrl cart "clear" quantity?).response
      ≠ CartResult.ok items) := by
  refine ⟨by decide, ?_, ?_⟩
  · rw [updateCartItemCtrl]
    by_cases hguard :
        (qFalsy quantity? || decide ((quantity?.getD 0) < 1)) = true
    · rw [if_pos hguard]
    · rw [if_neg hguard,
        (updateCartItemList_eq_none_iff cart "clear" (jsTrunc (quantity?.getD 0))).mpr h]
  · intro items
    rw [updateCartItemCtrl]
    by_cases hguard :
        (qFalsy quantity? || decide ((quantity?.getD 0) < 1)) = true
    · rw [if_pos hguard]
      intro hh
      cases hh
    · rw [if_neg hguard,
        (updateCartItemList_eq_none_iff cart "clear" (jsTrunc (quantity?.getD 0))).mpr h]
      intro hh
      cases hh

/-- C9, witness: the theorem at a concrete cart — a bodyless
`PUT /api/users/cart/clear` reaches `updateCartItem` and fails, leaving the
cart intact. -/
theorem claim_C9_witness :
    ("clear" ∉ cartKeys sampleCart) ∧
    (dispatch userRoutes "PUT" ["cart", "clear"]
       = some (UserHandler.updateCartEntry, [("productId", "clear")]) ∧
     (updateCartItemCtrl sampleCart "clear" none).stored = sampleCart ∧
     (∀ items, (updateCartItemCtrl sampleCart "clear" none).response
       ≠ CartResult.ok items)) :=
  ⟨by decide, claim_C9 sampleCart none (by decide)⟩

/-! ## Claim C10 — cart add has no lower-bound check on quantity -/

/-- C10: `addToCart` performs no lower-bound validation on the requested
quantity: given an existing, available product, the handler never answers
ValidationError on account of the quantity; an entry already in the cart has
its quantity changed by `parseInt(q)` (a negative q decreases it), and when
the resulting quantity falls below 1 — or a fresh entry is inserted with
quantity below 1 — the save fails the schema validator `min: 1` and the
request returns Internal (500) with the stored cart unchanged. -/
theorem claim_C10 (cart : List CartEntry) (pid : OId) (q : ℚ) :
    (∀ msg, (addToCartCtrl true true cart pid (some q)).response
      ≠ CartResult.validationError msg) ∧
    (∀ old, cartLookup cart pid = some old →
      cartLookup (addToCartList cart pid (jsTrunc q)) pid
        = some (old + jsTrunc q)) ∧
    (∀ old, cartLookup cart pid = some old → old + jsTrunc q < 1 →
      addToCartCtrl true true cart pid (some q)
        = ⟨CartResult.serverError, cart⟩) ∧
    (pid ∉ cartKeys cart → jsTrunc q < 1 →
      addToCartCtrl true true cart pid (some q)
        = ⟨CartResult.serverError, cart⟩) := by
  refine ⟨?_, ?_, ?_, ?_⟩
  · intro msg
    rw [addToCartCtrl]
    simp only [Bool.not_true, Bool.false_eq_true, if_false, Option.getD_some]
    by_cases hsave : saveCartOk (addToCartList cart pid (jsTrunc q)) = true
    · rw [if_pos hsave]
      intro hh
      cases hh
    · rw [if_neg hsave]
      intro hh
      cases hh
  · intro old hold
    rw [cartLookup_addToCartList_self cart pid (jsTrunc q), hold]
    rfl
  · intro old hold hlt
    have hmem : (⟨pid, old + jsTrunc q⟩ : CartEntry)
        ∈ addToCartList cart pid (jsTrunc q) :=
      mem_addToCartList_of_lookup cart pid (jsTrunc q) old hold
    have hsave : ¬ saveCartOk (addToCartList cart pid (jsTrunc q)) = true := by
      intro hall
      rw [saveCartOk, List.all_eq_true] at hall
      have := of_decide_eq_true (hall _ hmem)
      exact absurd hlt (not_lt.mpr this)
    rw [addToCartCtrl]
    simp only [Bool.not_true, Bool.false_eq_true, if_false, Option.getD_some]
    rw [if_neg hsave]
  · intro hm hlt
    have hform : addToCartList cart pid (jsTrunc q) = cart ++ [⟨pid, jsTrunc q⟩] :=
      addToCartList_append_of_not_mem cart pid (jsTrunc q) hm
    have hsave : ¬ saveCartOk (addToCartList cart pid (jsTrunc q)) = true := by
      intro hall
      rw [saveCartOk, List.all_eq_true] at hall
      have hmem : (⟨pid, jsTrunc q⟩ : CartEntry)
          ∈ addToCartList cart pid (jsTrunc q) := by
        rw [hform]
        exact List.mem_append_right _ (List.mem_singleton.mpr rfl)
      have := of_decide_eq_true (hall _ hmem)
      exact absurd hlt (not_lt.mpr this)
    rw [addToCartCtrl]
    simp only [Bool.not_true, Bool.false_eq_true, if_false, Option.getD_some]
    rw [if_neg hsave]

/-- C10, witness: the theorem at a concrete input — adding quantity −5 to
the entry of quantity 2 drives it to −3, the save fails the `min: 1`
validator and the handler answers 500 with the cart unchanged. -/
theorem claim_C10_witness :
    cartLookup sampleCart "p1" = some 2 ∧
    (2 + jsTrunc (-5) < 1) ∧
    (cartLookup (addToCartList sampleCart "p1" (jsTrunc (-5))) "p1"
       = some (2 + jsTrunc (-5)) ∧
     addToCartCtrl true true sampleCart "p1" (some (-5))
       = ⟨CartResult.serverError, sampleCart⟩) :=
  ⟨by decide, by decide,
   (claim_C10 sampleCart "p1" (-5)).2.1 2 (by decide),
   (claim_C10 sampleCart "p1" (-5)).2.2.1 2 (by decide) (by decide)⟩

/-! ## Claim C7 — discount percentage -/

/-- C7: for every product, the computed `discountPercentage` agrees with the
spec's formula — 0 when no originalPrice is set, otherwise
`round((originalPrice − price) / originalPrice × 100)` (with the division-
by-zero convention `x / 0 = 0`, the falsy-zero guard of the code and the
spec formula coincide at `originalPrice = 0` as well). -/
theorem claim_C7 (p : Product) : discountPercentage p = specDiscountPercentage p := by
  unfold discountPercentage specDiscountPercentage
  cases hop : p.originalPrice with
  | none => rfl
  | some op =>
    show (if op = 0 then (0 : ℤ) else round ((op - p.price) / op * 100))
      = round ((op - p.price) / op * 100)
    by_cases h0 : op = 0
    · rw [if_pos h0, h0, div_zero, zero_mul, round_zero]
    · rw [if_neg h0]

/-! ## Claim C8 — product listing with price_low sort and pagination -/

theorem sortProducts_price_low (ps : List Product) :
    sortProducts "price_low" ps
      = List.insertionSort (fun a b => a.price ≤ b.price) ps := by
  rw [sortProducts, if_neg (by decide), if_pos rfl]

/-- The four Footwear products of the scenario, priced [10, 40, 25, 5]. -/
def footwearCatalog : List Product :=
  [ { id := "f1", title := "Boot", price := 10, originalPrice := none
      category := "Footwear", condition := "Good", seller := "s1"
      isAvailable := true, createdAt := 1 }
  , { id := "f2", title := "Heel", price := 40, originalPrice := none
      category := "Footwear", condition := "Good", seller := "s1"
      isAvailable := true, createdAt := 2 }
  , { id := "f3", title := "Flat", price := 25, originalPrice := none
      category := "Footwear", condition := "Good", seller := "s1"
      isAvailable := true, createdAt := 3 }
  , { id := "f4", title := "Clog", price := 5, originalPrice := none
      category := "Footwear", condition := "Good", seller := "s1"
      isAvailable := true, createdAt := 4 } ]

/-- The scenario query: category=Footwear, sort=price_low, page=1, limit=2. -/
def footwearQuery : ProductQuery :=
  { category := some "Footwear", condition := none, seller := none
    priceMin := none, priceMax := none, sort := "price_low"
    page := 1, limit := 2 }

/-- C8: a product-list query with sort=price_low returns a page of matching
products in ascending price order — the slice of the sorted matches that
skips (page−1)×limit and takes limit — together with `total` = the full
match count and `pages` = ⌈total / limit⌉; in particular the scenario query
(category=Footwear, page=1, limit=2 over products priced [10,40,25,5])
returns the prices [5,10] with total=4 and pages=2. -/
theorem claim_C8 (catalog : List Product) (q : ProductQuery)
    (hsort : q.sort = "price_low") :
    List.Pairwise (fun a b : Product => a.price ≤ b.price)
      (getProducts q catalog).products ∧
    (∀ p ∈ (getProducts q catalog).products, matchesQuery q p = true ∧ p ∈ catalog) ∧
    (getProducts q catalog).products.length ≤ q.limit ∧
    (getProducts q catalog).total = (catalog.filter (matchesQuery q)).length ∧
    (getProducts q catalog).pages
      = ⌈(((getProducts q catalog).total : ℚ) / (q.limit : ℚ))⌉ ∧
    ((getProducts footwearQuery footwearCatalog).products.map (fun p => p.price)
       = [5, 10] ∧
     (getProducts footwearQuery footwearCatalog).total = 4 ∧
     (getProducts footwearQuery footwearCatalog).pages = 2) := by
  haveI : IsTotal Product (fun a b => a.price ≤ b.price) :=
    ⟨fun a b => le_total a.price b.price⟩
  haveI : IsTrans Product (fun a b => a.price ≤ b.price) :=
    ⟨fun a b c hab hbc => le_trans hab hbc⟩
  have hprod : (getProducts q catalog).products
      = ((List.insertionSort (fun a b : Product => a.price ≤ b.price)
          (catalog.filter (matchesQuery q))).drop
            ((q.page - 1) * q.limit)).take q.limit := by
    show ((sortProducts q.sort (catalog.filter (matchesQuery q))).drop
        ((q.page - 1) * q.limit)).take q.limit = _
    rw [hsort, sortProducts_price_low]
  have hsub : ((List.insertionSort (fun a b : Product => a.price ≤ b.price)
      (catalog.filter (matchesQuery q))).drop
        ((q.page - 1) * q.limit)).take q.limit
      |>.Sublist (List.insertionSort (fun a b : Product => a.price ≤ b.price)
          (catalog.filter (matchesQuery q))) :=
    (List.take_sublist _ _).trans (List.drop_sublist _ _)
  refine ⟨?_, ?_, ?_, rfl, rfl, ?_, ?_, ?_⟩
  · rw [hprod]
    exact List.Pairwise.sublist hsub
      (List.sorted_insertionSort (fun a b : Product => a.price ≤ b.price) _)
  · intro p hp
    rw [hprod] at hp
    have hp1 : p ∈ List.insertionSort (fun a b : Product => a.price ≤ b.price)
        (catalog.filter (matchesQuery q)) := hsub.subset hp
    have hp2 : p ∈ catalog.filter (matchesQuery q) :=
      (List.perm_insertionSort _ _).subset hp1
    have hp3 := List.mem_filter.mp hp2
    exact ⟨hp3.2, hp3.1⟩
  · rw [hprod]
    exact (List.length_take _ _).trans_le (min_le_left _ _)
  · decide
  · decide
  · show (⌈(((footwearCatalog.filter (matchesQuery footwearQuery)).length : ℚ)
        / ((footwearQuery.limit : ℕ) : ℚ))⌉ : ℤ) = 2
    have hlen : (footwearCatalog.filter (matchesQuery footwearQuery)).length = 4 := by
      decide
    rw [hlen]
    have h42 : (((4 : ℕ) : ℚ) / (((2 : ℕ) : ℕ) : ℚ)) = ((2 : ℤ) : ℚ) := by
      norm_num
    rw [show (footwearQuery.limit : ℕ) = 2 from rfl, h42, Int.ceil_intCast]

/-- C8, witness: the theorem instantiated at the scenario input. -/
theorem claim_C8_witness :
    footwearQuery.sort = "price_low" ∧
    (getProducts footwearQuery footwearCatalog).products.map (fun p => p.price)
      = [5, 10] ∧
    (getProducts footwearQuery footwearCatalog).total = 4 ∧
    (getProducts footwearQuery footwearCatalog).pages = 2 :=
  ⟨rfl, (claim_C8 footwearCatalog footwearQuery rfl).2.2.2.2.2⟩
